import Mathlib

/-!
Verification of the cnat "At" reconciler
(src/cnat-kubebuilder/internal/controller/at_controller.go).

The Go reconciler is embedded as a pure Lean function over an explicit
environment that records the results of every external call (client Get,
Create, SetControllerReference, Status().Update) and the current time.
The outcome records the returned `ctrl.Result`, the returned error, the
in-memory instance at return, and the ordered trace of client operations
performed, so that claims about "no status write", "exactly one create"
and so on are statements about the trace.
-/

namespace Cnat

/-- Errors surfaced by client calls.  `notFound` is the class recognised by
`errors.IsNotFound`; `other` stands for every other non-nil error
(network failures, conflicts, parse errors returned as-is, ...). -/
inductive KErr where
  | notFound
  | other
  deriving DecidableEq, Repr

/-- Phase constants referenced by at_controller.go as
`cnatv1alpha1.PhasePending` / `PhaseRunning` / `PhaseDone`.  Their defining
file (api/v1alpha1 types) is not under src/; the string values PENDING,
RUNNING, DONE are taken from the repository docs (README.md and
docs/KUBERNETES_OPERATOR_COMPLETE_GUIDE.md).  Only their distinctness and
their distinctness from the empty string matter below. -/
def PhasePending : String := "PENDING"

/-- See `PhasePending`. -/
def PhaseRunning : String := "RUNNING"

/-- See `PhasePending`. -/
def PhaseDone : String := "DONE"

/-- `AtSpec`: `spec.schedule` and `spec.command` of the At resource. -/
structure AtSpec where
  schedule : String
  command : String
  deriving DecidableEq, Repr

/-- `AtStatus`: the engine-owned status, a single phase string. -/
structure AtStatus where
  phase : String
  deriving DecidableEq, Repr

/-- The At custom resource: identity (name, namespace `ns`), spec, status. -/
structure At where
  name : String
  ns : String
  spec : AtSpec
  status : AtStatus
  deriving DecidableEq, Repr

/-- `corev1.PodPhase` values relevant to the controller. -/
inductive PodPhase where
  | pending
  | running
  | succeeded
  | failed
  | unknown
  deriving DecidableEq, Repr

/-- The pod object built by `newPodForCR` (metadata and spec; the status
phase of an existing pod is supplied by the environment's Get result). -/
structure Pod where
  name : String
  ns : String
  labels : List (String × String)
  containerName : String
  image : String
  command : List String
  restartPolicy : String
  deriving DecidableEq, Repr

/-- `newPodForCR` from at_controller.go: a busybox pod named
`<cr name>-pod` in the cr's namespace, labelled `app: <cr name>`, whose
container command is `strings.Split(cr.Spec.Command, " ")`, restart policy
OnFailure. -/
def newPodForCR (cr : At) : Pod :=
  { name := cr.name ++ "-pod"
    ns := cr.ns
    labels := [("app", cr.name)]
    containerName := "busybox"
    image := "busybox"
    command := cr.spec.command.splitOn " "
    restartPolicy := "OnFailure" }

/-- True on ASCII decimal digits. -/
def isDigit (c : Char) : Bool := '0' ≤ c && c ≤ '9'

/-- Decimal value of a digit character. -/
def digitVal (c : Char) : Nat := c.toNat - '0'.toNat

/-- Gregorian leap-year rule, as used by Go's time package. -/
def isLeapYear (y : Nat) : Bool :=
  (y % 4 == 0 && y % 100 != 0) || y % 400 == 0

/-- Number of days in month `m` of year `y`. -/
def daysInMonth (y m : Nat) : Nat :=
  if m = 2 then (if isLeapYear y then 29 else 28)
  else if m = 4 ∨ m = 6 ∨ m = 9 ∨ m = 11 then 30
  else 31

/-- Days in year `y` strictly before month `m` (1-based). -/
def daysBeforeMonth (leap : Bool) (m : Nat) : Nat :=
  let base := [0, 31, 59, 90, 120, 151, 181, 212, 243, 273, 304, 334].getD (m - 1) 0
  if leap && decide (2 < m) then base + 1 else base

/-- Days strictly before year `y` counting from year 0 (proleptic
Gregorian, year 0 is a leap year, matching Go's calendar). -/
def daysBeforeYear (y : Nat) : Nat :=
  365 * y + (y + 3) / 4 - (y + 99) / 100 + (y + 399) / 400

/-- Absolute timestamp, in seconds since 0000-01-01T00:00:00Z, of the
civil datetime (y, m, d, h, mi, s).  All schedule times and `now` live on
this one timeline (scaled to nanoseconds below), so differences agree
with Go's `time.Sub`. -/
def secondsSinceYear0 (y m d h mi s : Nat) : Nat :=
  (daysBeforeYear y + daysBeforeMonth (isLeapYear y) m + (d - 1)) * 86400
    + h * 3600 + mi * 60 + s

/-- Go `getnum(value, true)` on a two-digit zero-padded chunk
("01", "02", "04", "05"): exactly two digits. -/
def parse2 (l : List Char) : Option (Nat × List Char) :=
  match l with
  | c1 :: c2 :: rest =>
    if isDigit c1 && isDigit c2 then some (digitVal c1 * 10 + digitVal c2, rest)
    else none
  | _ => none

/-- Go `getnum(value, false)` as used for the "15" hour chunk: one digit,
or two when the second character is also a digit. -/
def parseHourNum (l : List Char) : Option (Nat × List Char) :=
  match l with
  | c1 :: c2 :: rest =>
    if isDigit c1 then
      if isDigit c2 then some (digitVal c1 * 10 + digitVal c2, rest)
      else some (digitVal c1, c2 :: rest)
    else none
  | [c1] => if isDigit c1 then some (digitVal c1, []) else none
  | [] => none

/-- Go `stdLongYear` ("2006"): exactly four digits. -/
def parse4 (l : List Char) : Option (Nat × List Char) :=
  match l with
  | a :: b :: c :: d :: rest =>
    if isDigit a && isDigit b && isDigit c && isDigit d then
      some (((digitVal a * 10 + digitVal b) * 10 + digitVal c) * 10 + digitVal d, rest)
    else none
  | _ => none

/-- A literal layout character must match exactly. -/
def lit (c : Char) (l : List Char) : Option (List Char) :=
  match l with
  | x :: rest => if x = c then some rest else none
  | [] => none

/-- Longest leading run of digits. -/
def takeDigits (l : List Char) : List Char × List Char :=
  match l with
  | c :: rest =>
    if isDigit c then
      let (ds, r) := takeDigits rest
      (c :: ds, r)
    else ([], l)
  | [] => ([], [])

/-- Go `parseNanoseconds`: at most the first nine fractional digits are
used, scaled to nanoseconds; further digits are consumed and dropped. -/
def fracToNanos (ds : List Char) : Nat :=
  let ds9 := ds.take 9
  (ds9.foldl (fun acc c => acc * 10 + digitVal c) 0) * 10 ^ (9 - ds9.length)

/-- Go's parse-only fractional second after the seconds chunk: when the
layout has no fractional chunk but the input continues with `.` or `,`
followed by at least one digit, the whole digit run is consumed and
converted to nanoseconds; otherwise nothing is consumed. -/
def parseFrac (l : List Char) : Nat × List Char :=
  match l with
  | s :: d :: rest =>
    if (s = '.' ∨ s = ',') ∧ isDigit d then
      let (ds, r) := takeDigits (d :: rest)
      (fracToNanos ds, r)
    else (0, l)
  | _ => (0, l)

/-- The `2006-01-02` part of the layout: four-digit year, literal `-`,
fixed two-digit month in 1..12, literal `-`, fixed two-digit day (its
range is checked against the month at the end, as Go does). -/
def parseDate (l : List Char) : Option (Nat × Nat × Nat × List Char) :=
  match parse4 l with
  | none => none
  | some (y, r1) =>
    match lit '-' r1 with
    | none => none
    | some r2 =>
      match parse2 r2 with
      | none => none
      | some (mo, r3) =>
        if 1 ≤ mo ∧ mo ≤ 12 then
          match lit '-' r3 with
          | none => none
          | some r4 =>
            match parse2 r4 with
            | none => none
            | some (da, r5) => some (y, mo, da, r5)
        else none

/-- The `15:04:05` part of the layout: one-or-two-digit hour ≤ 23,
literal `:`, fixed two-digit minute ≤ 59, literal `:`, fixed two-digit
second ≤ 59. -/
def parseClock (l : List Char) : Option (Nat × Nat × Nat × List Char) :=
  match parseHourNum l with
  | none => none
  | some (ho, r1) =>
    if ho ≤ 23 then
      match lit ':' r1 with
      | none => none
      | some r2 =>
        match parse2 r2 with
        | none => none
        | some (mi, r3) =>
          if mi ≤ 59 then
            match lit ':' r3 with
            | none => none
            | some r4 =>
              match parse2 r4 with
              | none => none
              | some (se, r5) => if se ≤ 59 then some (ho, mi, se, r5) else none
          else none
    else none

/-- `time.Parse("2006-01-02T15:04:05Z", schedule)`, chunk by chunk: in
this layout the trailing `Z` is a literal character, so the input is
`YYYY-MM-DDTh:mm:ssZ` or `YYYY-MM-DDThh:mm:ssZ` — four-digit year, fixed
two-digit month/day/minute/second, one-or-two-digit hour (the "15" chunk
parses non-fixed), an optional fractional second before the `Z`
(parse-only acceptance), nothing after the `Z`, ranges checked (month
1-12, day valid for the month and leap year, hour ≤ 23, minute and
second ≤ 59), interpreted as UTC.  Returns the absolute time in
nanoseconds since 0000-01-01T00:00:00Z, or `none` on a parse error. -/
def parseScheduleUTC (schedule : String) : Option Int :=
  match parseDate schedule.data with
  | none => none
  | some (y, mo, da, r1) =>
    match lit 'T' r1 with
    | none => none
    | some r2 =>
      match parseClock r2 with
      | none => none
      | some (ho, mi, se, r3) =>
        let (ns, r4) := parseFrac r3
        match lit 'Z' r4 with
        | none => none
        | some r5 =>
          if r5 = [] ∧ 1 ≤ da ∧ da ≤ daysInMonth y mo then
            some ((secondsSinceYear0 y mo da ho mi se : Int) * 1000000000 + ns)
          else none

/-- `timeUntilSchedule` from at_controller.go: parse the schedule in the
fixed UTC layout and return `schedule - now` in nanoseconds (negative
when overdue); `none` models the non-nil parse error. -/
def timeUntilSchedule (now : Int) (schedule : String) : Option Int :=
  match parseScheduleUTC schedule with
  | none => none
  | some s => some (s - now)

deriving instance DecidableEq for Except

/-- Environment of one reconcile call: the current time and the result
each external call would return if performed. -/
structure Env where
  /-- `time.Now().UTC()` in nanoseconds on the `secondsSinceYear0` timeline. -/
  now : Int
  getAt : Except KErr At
  setOwnerRef : Option KErr
  getPod : Except KErr PodPhase
  createPod : Option KErr
  updateStatus : Option KErr
  deriving DecidableEq, Repr

/-- One client operation performed during a reconcile, in order. -/
inductive Op where
  | getAt
  | setOwner (p : Pod)
  | getPod (name ns : String)
  | createPod (p : Pod)
  | updateStatus (s : AtStatus)
  deriving DecidableEq, Repr

/-- `ctrl.Result`: only `RequeueAfter` is ever set by this controller
(0 means no requeue). Measured in nanoseconds (Go's `time.Duration`
unit) on the `secondsSinceYear0` timeline. -/
structure ReconcileResult where
  requeueAfter : Int
  deriving DecidableEq, Repr

/-- Everything observable about one reconcile call. -/
structure Outcome where
  res : ReconcileResult
  err : Option KErr
  inst : Option At
  ops : List Op
  deriving DecidableEq, Repr

/-- The persist step at the end of Reconcile: `r.Status().Update`;
a failure is returned as the reconcile's error. -/
def persistStep (env : Env) (inst1 : At) (ops : List Op) : Outcome :=
  match env.updateStatus with
  | some e => { res := ⟨0⟩, err := some e, inst := some inst1,
                ops := ops ++ [Op.updateStatus inst1.status] }
  | none => { res := ⟨0⟩, err := none, inst := some inst1,
              ops := ops ++ [Op.updateStatus inst1.status] }

/-- The in-memory defaulting of an unset phase to PENDING
(at_controller.go lines 74-76). -/
def defaulted (inst0 : At) : At :=
  if inst0.status.phase = "" then
    { inst0 with status := { phase := PhasePending } } else inst0

/-- See `reconcile`: the body after a successful fetch of `inst0`. -/
def reconcileFetched (env : Env) (inst0 : At) : Outcome :=
  let inst1 := defaulted inst0
  if inst1.status.phase = PhasePending then
    match timeUntilSchedule env.now inst1.spec.schedule with
    | none =>
      { res := ⟨0⟩, err := some KErr.other, inst := some inst1, ops := [Op.getAt] }
    | some d =>
      if 0 < d then
        { res := ⟨d⟩, err := none, inst := some inst1, ops := [Op.getAt] }
      else
        persistStep env { inst1 with status := { phase := PhaseRunning } } [Op.getAt]
  else if inst1.status.phase = PhaseRunning then
    let pod := newPodForCR inst1
    match env.setOwnerRef with
    | some e =>
      { res := ⟨0⟩, err := some e, inst := some inst1,
        ops := [Op.getAt, Op.setOwner pod] }
    | none =>
      let ops0 := [Op.getAt, Op.setOwner pod, Op.getPod pod.name pod.ns]
      match env.getPod with
      | .error e =>
        if e = KErr.notFound then
          match env.createPod with
          | some ce =>
            { res := ⟨0⟩, err := some ce, inst := some inst1,
              ops := ops0 ++ [Op.createPod pod] }
          | none => persistStep env inst1 (ops0 ++ [Op.createPod pod])
        else
          { res := ⟨0⟩, err := some e, inst := some inst1, ops := ops0 }
      | .ok ph =>
        if ph = PodPhase.failed ∨ ph = PodPhase.succeeded then
          persistStep env { inst1 with status := { phase := PhaseDone } } ops0
        else
          { res := ⟨0⟩, err := none, inst := some inst1, ops := ops0 }
  else if inst1.status.phase = PhaseDone then
    { res := ⟨0⟩, err := none, inst := some inst1, ops := [Op.getAt] }
  else
    { res := ⟨0⟩, err := none, inst := some inst1, ops := [Op.getAt] }

/-- `AtReconciler.Reconcile` from at_controller.go, mirrored branch by
branch: fetch the At; NotFound is success-no-requeue; default unset phase
to PENDING in memory; switch on the phase (PENDING computes the schedule
delay and either requeues after it or moves to RUNNING; RUNNING builds the
pod, sets the owner reference, gets the pod, creates it if absent, or
moves to DONE when it terminated; DONE and unknown phases are no-ops);
fall through to the status update. -/
def reconcile (env : Env) : Outcome :=
  match env.getAt with
  | .error e =>
    if e = KErr.notFound then
      { res := ⟨0⟩, err := none, inst := none, ops := [Op.getAt] }
    else
      { res := ⟨0⟩, err := some e, inst := none, ops := [Op.getAt] }
  | .ok inst0 => reconcileFetched env inst0

/-- The statuses written by `Status().Update` calls in a trace, in order. -/
def writtenStatuses (ops : List Op) : List AtStatus :=
  ops.filterMap fun op =>
    match op with
    | .updateStatus s => some s
    | _ => none

/-- Number of `Create` calls in a trace. -/
def createCount (ops : List Op) : Nat :=
  ops.countP fun op =>
    match op with
    | .createPod _ => true
    | _ => false

/-- Number of operations touching the derived pod (owner ref, get, create). -/
def podOpCount (ops : List Op) : Nat :=
  ops.countP fun op =>
    match op with
    | .setOwner _ => true
    | .getPod _ _ => true
    | .createPod _ => true
    | _ => false

/-- Position of a phase value in the order unset → PENDING → RUNNING →
DONE (phases outside the order rank 0; they are never moved by the code). -/
def phaseRank (p : String) : Nat :=
  if p = PhaseDone then 3
  else if p = PhaseRunning then 2
  else if p = PhasePending then 1
  else 0

/-- Concrete fixture: a PENDING At whose schedule parses to 100 seconds
= 100000000000 ns on the model timeline. -/
def atPendFuture : At :=
  ⟨"myat", "default", ⟨"0000-01-01T00:01:40Z", "echo YAY"⟩, ⟨PhasePending⟩⟩

/-- Concrete fixture: unset phase, same schedule. -/
def atUnset : At :=
  ⟨"myat", "default", ⟨"0000-01-01T00:01:40Z", "echo YAY"⟩, ⟨""⟩⟩

/-- Concrete fixture: RUNNING phase. -/
def atRun : At :=
  ⟨"myat", "default", ⟨"0000-01-01T00:01:40Z", "echo YAY"⟩, ⟨PhaseRunning⟩⟩

/-- Concrete fixture: DONE phase. -/
def atFin : At :=
  ⟨"myat", "default", ⟨"0000-01-01T00:01:40Z", "echo YAY"⟩, ⟨PhaseDone⟩⟩

/-- Concrete fixture: PENDING with a malformed schedule. -/
def atBad : At :=
  ⟨"myat", "default", ⟨"not-a-date", "echo YAY"⟩, ⟨PhasePending⟩⟩

/-- Environment: unset phase, now = 40 ns (before the schedule at
100000000000 ns). -/
def envUnsetFuture : Env :=
  ⟨40, .ok atUnset, none, .error .notFound, none, none⟩

/-- Environment: PENDING, now = 200000000000 ns (past the schedule at
100000000000 ns). -/
def envPast : Env :=
  ⟨200000000000, .ok atPendFuture, none, .error .notFound, none, none⟩

/-- Environment: the At fetch reports NotFound. -/
def envNotFound : Env :=
  ⟨40, .error .notFound, none, .error .notFound, none, none⟩

/-- Environment: RUNNING, pod absent, all calls succeed. -/
def envRunAbsent : Env :=
  ⟨200, .ok atRun, none, .error .notFound, none, none⟩

/-- Environment: RUNNING, pod present and still running. -/
def envRunActive : Env :=
  ⟨200, .ok atRun, none, .ok .running, none, none⟩

/-- Environment: RUNNING, pod present and succeeded. -/
def envRunTerminal : Env :=
  ⟨200, .ok atRun, none, .ok .succeeded, none, none⟩

/-- Environment: DONE. -/
def envDone : Env :=
  ⟨200, .ok atFin, none, .error .notFound, none, none⟩

/-- Environment: PENDING with malformed schedule. -/
def envBad : Env :=
  ⟨200, .ok atBad, none, .error .notFound, none, none⟩

/-- Fixture pair for determinism: same name/namespace/command, different
schedule and phase. -/
def atSchedA : At := ⟨"a", "ns1", ⟨"0000-01-01T00:01:40Z", "echo YAY"⟩, ⟨""⟩⟩

/-- See `atSchedA`. -/
def atSchedB : At := ⟨"a", "ns1", ⟨"2026-02-10T20:30:00Z", "echo YAY"⟩, ⟨PhaseDone⟩⟩

/-- The defaulting step never changes the spec or identity. -/
theorem defaulted_spec (inst0 : At) : (defaulted inst0).spec = inst0.spec := by
  unfold defaulted
  split <;> rfl

/-- An unset-or-PENDING phase is PENDING after defaulting. -/
theorem defaulted_phase_of (inst0 : At)
    (hph : inst0.status.phase = "" ∨ inst0.status.phase = PhasePending) :
    (defaulted inst0).status.phase = PhasePending := by
  unfold defaulted
  rcases hph with h | h <;> simp [h, PhasePending]

/-- Claim C5: a NotFound on the At fetch yields success with no requeue,
no further client calls, and no state change. -/
theorem C5_notfound_success_no_requeue (env : Env)
    (h : env.getAt = Except.error KErr.notFound) :
    reconcile env = { res := ⟨0⟩, err := none, inst := none, ops := [Op.getAt] } := by
  simp [reconcile, h]

/-- Witness for C5 at the concrete environment `envNotFound`. -/
theorem C5_witness :
    reconcile envNotFound = { res := ⟨0⟩, err := none, inst := none, ops := [Op.getAt] } :=
  C5_notfound_success_no_requeue envNotFound rfl

/-- Claim C9: `newPodForCR` is a deterministic function of the resource's
name, namespace, and command: it always returns the pod with name
`<name>-pod`, same namespace, label app=name, busybox container whose
command is the space-split of spec.command, restart policy OnFailure; and
equal inputs give identical pods. -/
theorem C9_pod_deterministic :
    (∀ cr : At, newPodForCR cr =
      { name := cr.name ++ "-pod", ns := cr.ns, labels := [("app", cr.name)],
        containerName := "busybox", image := "busybox",
        command := cr.spec.command.splitOn " ", restartPolicy := "OnFailure" }) ∧
    (∀ cr cr2 : At, cr.name = cr2.name → cr.ns = cr2.ns →
      cr.spec.command = cr2.spec.command → newPodForCR cr = newPodForCR cr2) := by
  constructor
  · intro cr
    rfl
  · intro cr cr2 h1 h2 h3
    simp [newPodForCR, h1, h2, h3]

/-- Witness for C9: two resources differing only in schedule and phase
give the same pod. -/
theorem C9_witness : newPodForCR atSchedA = newPodForCR atSchedB :=
  C9_pod_deterministic.2 atSchedA atSchedB rfl rfl rfl

/-- A phase that is not the empty string is untouched by defaulting. -/
theorem defaulted_of_ne (inst0 : At) (h : inst0.status.phase ≠ "") :
    defaulted inst0 = inst0 := by
  unfold defaulted
  simp [h]

/-- The persist step returns exactly the status writer's error. -/
theorem persistStep_err (env : Env) (i : At) (ops : List Op) :
    (persistStep env i ops).err = env.updateStatus := by
  cases h : env.updateStatus <;> simp [persistStep, h]

/-- The persist step returns the in-memory instance it was given. -/
theorem persistStep_inst (env : Env) (i : At) (ops : List Op) :
    (persistStep env i ops).inst = some i := by
  cases h : env.updateStatus <;> simp [persistStep, h]

/-- The persist step appends exactly one status-update operation. -/
theorem persistStep_ops (env : Env) (i : At) (ops : List Op) :
    (persistStep env i ops).ops = ops ++ [Op.updateStatus i.status] := by
  cases h : env.updateStatus <;> simp [persistStep, h]

/-- Claim C6: unset-or-PENDING phase with a schedule that does not parse
makes every reconcile return a non-nil error, with no status write and no
further client calls, so the persisted phase never advances. -/
theorem C6_malformed_schedule_error (env : Env) (inst0 : At)
    (h : env.getAt = Except.ok inst0)
    (hph : inst0.status.phase = "" ∨ inst0.status.phase = PhasePending)
    (hs : parseScheduleUTC inst0.spec.schedule = none) :
    (reconcile env).err ≠ none ∧ (reconcile env).ops = [Op.getAt] ∧
    writtenStatuses (reconcile env).ops = [] ∧
    (reconcile env).res.requeueAfter = 0 := by
  have hph1 := defaulted_phase_of inst0 hph
  have hspec := defaulted_spec inst0
  have hd : timeUntilSchedule env.now (defaulted inst0).spec.schedule = none := by
    rw [hspec]
    simp [timeUntilSchedule, hs]
  simp [reconcile, h, reconcileFetched, hph1, hd, writtenStatuses]

/-- Witness for C6 at the concrete environment `envBad`
(schedule "not-a-date"). -/
theorem C6_witness :
    (reconcile envBad).err ≠ none ∧ (reconcile envBad).ops = [Op.getAt] ∧
    writtenStatuses (reconcile envBad).ops = [] ∧
    (reconcile envBad).res.requeueAfter = 0 :=
  C6_malformed_schedule_error envBad atBad rfl (Or.inr rfl) (by decide)

/-- In the RUNNING phase the number of Create calls is 1 exactly when the
owner-reference step succeeded and the pod Get returned NotFound, else 0. -/
theorem createCount_running (env : Env) (inst0 : At)
    (h : env.getAt = Except.ok inst0) (hrun : inst0.status.phase = PhaseRunning) :
    createCount (reconcile env).ops =
      (if env.setOwnerRef = none ∧ env.getPod = Except.error KErr.notFound
       then 1 else 0) := by
  have hne : inst0.status.phase ≠ "" := by
    rw [hrun]
    decide
  have hd := defaulted_of_ne inst0 hne
  rcases hso : env.setOwnerRef with _ | e
  · rcases hgp : env.getPod with e2 | ph
    · cases e2 with
      | notFound =>
        rcases hcp : env.createPod with _ | ce
        · rcases hus : env.updateStatus with _ | ue <;>
            simp [reconcile, h, reconcileFetched, hd, hrun, hso, hgp, hcp, hus,
              persistStep, createCount, PhasePending, PhaseRunning, PhaseDone]
        · simp [reconcile, h, reconcileFetched, hd, hrun, hso, hgp, hcp,
            createCount, PhasePending, PhaseRunning, PhaseDone]
      | other =>
        simp [reconcile, h, reconcileFetched, hd, hrun, hso, hgp,
          createCount, PhasePending, PhaseRunning, PhaseDone]
    · by_cases hterm : ph = PodPhase.failed ∨ ph = PodPhase.succeeded
      · rcases hus : env.updateStatus with _ | ue <;>
          simp [reconcile, h, reconcileFetched, hd, hrun, hso, hgp, hterm, hus,
            persistStep, createCount, PhasePending, PhaseRunning, PhaseDone]
      · simp [reconcile, h, reconcileFetched, hd, hrun, hso, hgp, hterm,
          createCount, PhasePending, PhaseRunning, PhaseDone]
  · simp [reconcile, h, reconcileFetched, hd, hrun, hso,
      createCount, PhasePending, PhaseRunning, PhaseDone]

/-- Claim C7: in the RUNNING phase, Create is called exactly when the Get
of the derived pod returns NotFound (and the owner-reference step
succeeded); two consecutive reconciles where the first sees the pod
absent and the second sees it present make exactly one Create in total;
and a reconcile observing an existing non-terminal pod performs no
create, no update and no status write. -/
theorem C7_create_iff_absent :
    (∀ (env : Env) (inst0 : At), env.getAt = Except.ok inst0 →
      inst0.status.phase = PhaseRunning →
      createCount (reconcile env).ops =
        (if env.setOwnerRef = none ∧ env.getPod = Except.error KErr.notFound
         then 1 else 0)) ∧
    (∀ (env1 env2 : Env) (inst1 inst2 : At),
      env1.getAt = Except.ok inst1 → inst1.status.phase = PhaseRunning →
      env1.setOwnerRef = none → env1.getPod = Except.error KErr.notFound →
      env2.getAt = Except.ok inst2 → inst2.status.phase = PhaseRunning →
      (∀ ph, env2.getPod ≠ Except.error ph) →
      createCount (reconcile env1).ops + createCount (reconcile env2).ops = 1) ∧
    (∀ (env : Env) (inst0 : At) (ph : PodPhase), env.getAt = Except.ok inst0 →
      inst0.status.phase = PhaseRunning → env.setOwnerRef = none →
      env.getPod = Except.ok ph → ph ≠ PodPhase.failed → ph ≠ PodPhase.succeeded →
      createCount (reconcile env).ops = 0 ∧
      writtenStatuses (reconcile env).ops = [] ∧
      (reconcile env).err = none ∧ (reconcile env).res.requeueAfter = 0) := by
  refine ⟨createCount_running, ?_, ?_⟩
  · intro env1 env2 inst1 inst2 h1 hr1 hso1 hgp1 h2 hr2 hgp2
    rw [createCount_running env1 inst1 h1 hr1, createCount_running env2 inst2 h2 hr2]
    rw [if_pos ⟨hso1, hgp1⟩, if_neg]
    rintro ⟨-, hbad⟩
    exact hgp2 KErr.notFound hbad
  · intro env inst0 ph h hrun hso hgp hnf hns
    have hne : inst0.status.phase ≠ "" := by
      rw [hrun]
      decide
    have hd := defaulted_of_ne inst0 hne
    have hterm : ¬(ph = PodPhase.failed ∨ ph = PodPhase.succeeded) := by
      rintro (hh | hh) <;> [exact hnf hh; exact hns hh]
    simp [reconcile, h, reconcileFetched, hd, hrun, hso, hgp, hterm,
      createCount, writtenStatuses, PhasePending, PhaseRunning, PhaseDone]

/-- Witness for C7: two consecutive reconciles (`envRunAbsent` then
`envRunActive`) make exactly one Create; the second one writes nothing. -/
theorem C7_witness :
    createCount (reconcile envRunAbsent).ops + createCount (reconcile envRunActive).ops = 1 ∧
    createCount (reconcile envRunActive).ops = 0 ∧
    writtenStatuses (reconcile envRunActive).ops = [] :=
  ⟨C7_create_iff_absent.2.1 envRunAbsent envRunActive atRun atRun rfl rfl rfl rfl
      rfl rfl (fun ph hph => by cases hph),
   (C7_create_iff_absent.2.2 envRunActive atRun PodPhase.running rfl rfl rfl rfl
      (by decide) (by decide)).1,
   (C7_create_iff_absent.2.2 envRunActive atRun PodPhase.running rfl rfl rfl rfl
      (by decide) (by decide)).2.1⟩

/-- Claim C8: a RUNNING reconcile that observes the pod terminated sets
the phase to DONE and writes that status in the same pass; a reconcile
that reads phase DONE succeeds with no requeue and performs no pod
operation at all. -/
theorem C8_terminal_to_done :
    (∀ (env : Env) (inst0 : At) (ph : PodPhase), env.getAt = Except.ok inst0 →
      inst0.status.phase = PhaseRunning → env.setOwnerRef = none →
      env.getPod = Except.ok ph → (ph = PodPhase.succeeded ∨ ph = PodPhase.failed) →
      (∃ i, (reconcile env).inst = some i ∧ i.status.phase = PhaseDone) ∧
      Op.updateStatus ⟨PhaseDone⟩ ∈ (reconcile env).ops) ∧
    (∀ (env : Env) (inst0 : At), env.getAt = Except.ok inst0 →
      inst0.status.phase = PhaseDone →
      reconcile env = { res := ⟨0⟩, err := none, inst := some inst0, ops := [Op.getAt] } ∧
      podOpCount (reconcile env).ops = 0) := by
  constructor
  · intro env inst0 ph h hrun hso hgp hterm
    have hne : inst0.status.phase ≠ "" := by
      rw [hrun]
      decide
    have hd := defaulted_of_ne inst0 hne
    have hterm2 : ph = PodPhase.failed ∨ ph = PodPhase.succeeded := hterm.symm
    rcases hus : env.updateStatus with _ | ue <;>
      simp [reconcile, h, reconcileFetched, hd, hrun, hso, hgp, hterm2, hus,
        persistStep, PhasePending, PhaseRunning, PhaseDone]
  · intro env inst0 h hdone
    have hne : inst0.status.phase ≠ "" := by
      rw [hdone]
      decide
    have hd := defaulted_of_ne inst0 hne
    have heq : reconcile env =
        { res := ⟨0⟩, err := none, inst := some inst0, ops := [Op.getAt] } := by
      simp [reconcile, h, reconcileFetched, hd, hdone,
        PhasePending, PhaseRunning, PhaseDone]
    exact ⟨heq, by rw [heq]; rfl⟩

/-- Witness for C8 at `envRunTerminal` (pod succeeded) and `envDone`. -/
theorem C8_witness :
    ((∃ i, (reconcile envRunTerminal).inst = some i ∧ i.status.phase = PhaseDone) ∧
      Op.updateStatus ⟨PhaseDone⟩ ∈ (reconcile envRunTerminal).ops) ∧
    (reconcile envDone = { res := ⟨0⟩, err := none, inst := some atFin, ops := [Op.getAt] } ∧
      podOpCount (reconcile envDone).ops = 0) :=
  ⟨C8_terminal_to_done.1 envRunTerminal atRun PodPhase.succeeded rfl rfl rfl rfl
      (Or.inl rfl),
   C8_terminal_to_done.2 envDone atFin rfl rfl⟩

/-- Claim C1: in any single reconcile the phase only moves forward along
unset → PENDING → RUNNING → DONE: the in-memory phase at return and every
status value passed to the status writer rank at least as high as the
phase read at the start, and a resource read as DONE is returned
untouched with no status write at all. -/
theorem C1_phase_monotonic (env : Env) (inst0 : At)
    (h : env.getAt = Except.ok inst0) :
    (∀ i, (reconcile env).inst = some i →
        phaseRank inst0.status.phase ≤ phaseRank i.status.phase) ∧
    (∀ st ∈ writtenStatuses (reconcile env).ops,
        phaseRank inst0.status.phase ≤ phaseRank st.phase) ∧
    (inst0.status.phase = PhaseDone →
        (reconcile env).inst = some inst0 ∧
        writtenStatuses (reconcile env).ops = []) := by
  by_cases h0 : inst0.status.phase = ""
  · have hd : defaulted inst0 = { inst0 with status := { phase := PhasePending } } := by
      unfold defaulted
      rw [if_pos h0]
    rcases hp : timeUntilSchedule env.now inst0.spec.schedule with _ | d
    · simp [reconcile, h, reconcileFetched, hd, hp, writtenStatuses, phaseRank,
        h0, PhasePending, PhaseRunning, PhaseDone]
    · by_cases hdpos : 0 < d
      · simp [reconcile, h, reconcileFetched, hd, hp, hdpos, writtenStatuses,
          phaseRank, h0, PhasePending, PhaseRunning, PhaseDone]
      · rcases hus : env.updateStatus with _ | ue <;>
          simp [reconcile, h, reconcileFetched, hd, hp, hdpos, hus, persistStep,
            writtenStatuses, phaseRank, h0, PhasePending, PhaseRunning, PhaseDone]
  · have hd := defaulted_of_ne inst0 h0
    by_cases hpend : inst0.status.phase = PhasePending
    · rcases hp : timeUntilSchedule env.now inst0.spec.schedule with _ | d
      · simp [reconcile, h, reconcileFetched, hd, hpend, hp, writtenStatuses,
          phaseRank, PhasePending, PhaseRunning, PhaseDone]
      · by_cases hdpos : 0 < d
        · simp [reconcile, h, reconcileFetched, hd, hpend, hp, hdpos,
            writtenStatuses, phaseRank, PhasePending, PhaseRunning, PhaseDone]
        · rcases hus : env.updateStatus with _ | ue <;>
            simp [reconcile, h, reconcileFetched, hd, hpend, hp, hdpos, hus,
              persistStep, writtenStatuses, phaseRank,
              PhasePending, PhaseRunning, PhaseDone]
    · by_cases hrun : inst0.status.phase = PhaseRunning
      · rcases hso : env.setOwnerRef with _ | e
        · rcases hgp : env.getPod with e2 | ph
          · cases e2 with
            | notFound =>
              rcases hcp : env.createPod with _ | ce
              · rcases hus : env.updateStatus with _ | ue <;>
                  simp [reconcile, h, reconcileFetched, hd, hrun, hso, hgp, hcp,
                    hus, persistStep, writtenStatuses, phaseRank,
                    PhasePending, PhaseRunning, PhaseDone]
              · simp [reconcile, h, reconcileFetched, hd, hrun, hso, hgp, hcp,
                  writtenStatuses, phaseRank, PhasePending, PhaseRunning, PhaseDone]
            | other =>
              simp [reconcile, h, reconcileFetched, hd, hrun, hso, hgp,
                writtenStatuses, phaseRank, PhasePending, PhaseRunning, PhaseDone]
          · by_cases hterm : ph = PodPhase.failed ∨ ph = PodPhase.succeeded
            · rcases hus : env.updateStatus with _ | ue <;>
                simp [reconcile, h, reconcileFetched, hd, hrun, hso, hgp, hterm,
                  hus, persistStep, writtenStatuses, phaseRank,
                  PhasePending, PhaseRunning, PhaseDone]
            · simp [reconcile, h, reconcileFetched, hd, hrun, hso, hgp, hterm,
                writtenStatuses, phaseRank, PhasePending, PhaseRunning, PhaseDone]
        · simp [reconcile, h, reconcileFetched, hd, hrun, hso, writtenStatuses,
            phaseRank, PhasePending, PhaseRunning, PhaseDone]
      · by_cases hdone : inst0.status.phase = PhaseDone
        · simp [reconcile, h, reconcileFetched, hd, hpend, hrun, hdone,
            writtenStatuses, phaseRank, PhasePending, PhaseRunning, PhaseDone]
        · simp [reconcile, h, reconcileFetched, hd, hpend, hrun, hdone,
            writtenStatuses, phaseRank]

/-- Witness for C1 at `envRunTerminal` (RUNNING resource, pod succeeded:
the phase advances to DONE and never regresses). -/
theorem C1_witness :
    (∀ i, (reconcile envRunTerminal).inst = some i →
        phaseRank atRun.status.phase ≤ phaseRank i.status.phase) ∧
    (∀ st ∈ writtenStatuses (reconcile envRunTerminal).ops,
        phaseRank atRun.status.phase ≤ phaseRank st.phase) ∧
    (atRun.status.phase = PhaseDone →
        (reconcile envRunTerminal).inst = some atRun ∧
        writtenStatuses (reconcile envRunTerminal).ops = []) :=
  C1_phase_monotonic envRunTerminal atRun rfl

/-- Counterexample for C3 as stated: at `envPast` (phase PENDING,
schedule overdue, every client call able to succeed) the reconcile moves
the phase to RUNNING but performs zero Create calls — the DerivedTask is
not created in the same pass. -/
theorem C3_counterexample :
    (reconcile envPast).inst =
      some { atPendFuture with status := { phase := PhaseRunning } } ∧
    createCount (reconcile envPast).ops = 0 ∧
    (reconcile envPast).err = none := by decide

/-- Claim C3 as amended: an unset-or-PENDING resource with an overdue
schedule has its phase set to RUNNING and that status written in the
first reconcile, with no Create in that pass; the pod creation happens in
the subsequent reconcile that reads phase RUNNING and finds the pod
absent. -/
theorem C3_overdue_runs_then_creates (env env2 : Env)
    (inst0 inst2 : At) (s : Int)
    (h : env.getAt = Except.ok inst0)
    (hph : inst0.status.phase = "" ∨ inst0.status.phase = PhasePending)
    (hs : parseScheduleUTC inst0.spec.schedule = some s)
    (hpast : s ≤ env.now)
    (h2 : env2.getAt = Except.ok inst2)
    (hr2 : inst2.status.phase = PhaseRunning)
    (hso2 : env2.setOwnerRef = none)
    (hgp2 : env2.getPod = Except.error KErr.notFound) :
    (∃ i, (reconcile env).inst = some i ∧ i.status.phase = PhaseRunning) ∧
    writtenStatuses (reconcile env).ops = [⟨PhaseRunning⟩] ∧
    createCount (reconcile env).ops = 0 ∧
    createCount (reconcile env2).ops = 1 := by
  have hpend := defaulted_phase_of inst0 hph
  have ht : timeUntilSchedule env.now (defaulted inst0).spec.schedule
      = some (s - env.now) := by
    rw [defaulted_spec]
    simp [timeUntilSchedule, hs]
  have hneg : ¬0 < s - env.now := by omega
  have hout : reconcile env = persistStep env
      { defaulted inst0 with status := { phase := PhaseRunning } } [Op.getAt] := by
    simp [reconcile, h, reconcileFetched, hpend, ht, hneg]
  refine ⟨⟨_, by rw [hout, persistStep_inst], rfl⟩, ?_, ?_, ?_⟩
  · rw [hout, persistStep_ops]
    rfl
  · rw [hout, persistStep_ops]
    rfl
  · rw [createCount_running env2 inst2 h2 hr2, if_pos ⟨hso2, hgp2⟩]

/-- Witness for the amended C3 at `envPast` followed by `envRunAbsent`. -/
theorem C3_witness :
    (∃ i, (reconcile envPast).inst = some i ∧ i.status.phase = PhaseRunning) ∧
    writtenStatuses (reconcile envPast).ops = [⟨PhaseRunning⟩] ∧
    createCount (reconcile envPast).ops = 0 ∧
    createCount (reconcile envRunAbsent).ops = 1 :=
  C3_overdue_runs_then_creates envPast envRunAbsent atPendFuture atRun 100000000000
    rfl (Or.inr rfl) (by decide) (by decide) rfl rfl rfl rfl

/-- Counterexample for C4 as stated: at `envUnsetFuture` the phase is
changed in memory from unset to PENDING during the reconcile, yet no
status write happens before returning. -/
theorem C4_counterexample :
    (reconcile envUnsetFuture).inst =
      some { atUnset with status := { phase := PhasePending } } ∧
    atUnset.status.phase ≠ PhasePending ∧
    writtenStatuses (reconcile envUnsetFuture).ops = [] := by decide

/-- Structural helper: the in-memory instance returned by a reconcile
that fetched `inst0` is either exactly the defaulted instance, or it was
passed to the status writer during the reconcile. -/
theorem reconcile_inst_cases (env : Env) (inst0 : At)
    (h : env.getAt = Except.ok inst0) (i : At)
    (hi : (reconcile env).inst = some i) :
    i = defaulted inst0 ∨ Op.updateStatus i.status ∈ (reconcile env).ops := by
  by_cases hpend : (defaulted inst0).status.phase = PhasePending
  · rcases ht : timeUntilSchedule env.now (defaulted inst0).spec.schedule with _ | d
    · have hout : (reconcile env).inst = some (defaulted inst0) := by
        simp [reconcile, h, reconcileFetched, hpend, ht]
      rw [hout] at hi
      exact Or.inl (Option.some.inj hi).symm
    · by_cases hdpos : 0 < d
      · have hout : (reconcile env).inst = some (defaulted inst0) := by
          simp [reconcile, h, reconcileFetched, hpend, ht, hdpos]
        rw [hout] at hi
        exact Or.inl (Option.some.inj hi).symm
      · have hout : reconcile env = persistStep env
            { defaulted inst0 with status := { phase := PhaseRunning } } [Op.getAt] := by
          simp [reconcile, h, reconcileFetched, hpend, ht, hdpos]
        rw [hout, persistStep_inst] at hi
        obtain rfl := Option.some.inj hi
        rw [hout, persistStep_ops]
        simp
  · by_cases hrun : (defaulted inst0).status.phase = PhaseRunning
    · rcases hso : env.setOwnerRef with _ | e
      · rcases hgp : env.getPod with e2 | ph
        · cases e2 with
          | notFound =>
            rcases hcp : env.createPod with _ | ce
            · have hout : reconcile env = persistStep env (defaulted inst0)
                  [Op.getAt, Op.setOwner (newPodForCR (defaulted inst0)),
                   Op.getPod (newPodForCR (defaulted inst0)).name
                     (newPodForCR (defaulted inst0)).ns,
                   Op.createPod (newPodForCR (defaulted inst0))] := by
                simp [reconcile, h, reconcileFetched, hpend, hrun, hso, hgp, hcp,
                  PhasePending, PhaseRunning, PhaseDone]
              rw [hout, persistStep_inst] at hi
              obtain rfl := Option.some.inj hi
              rw [hout, persistStep_ops]
              simp
            · have hout : (reconcile env).inst = some (defaulted inst0) := by
                simp [reconcile, h, reconcileFetched, hpend, hrun, hso, hgp, hcp,
                  PhasePending, PhaseRunning, PhaseDone]
              rw [hout] at hi
              exact Or.inl (Option.some.inj hi).symm
          | other =>
            have hout : (reconcile env).inst = some (defaulted inst0) := by
              simp [reconcile, h, reconcileFetched, hpend, hrun, hso, hgp,
                PhasePending, PhaseRunning, PhaseDone]
            rw [hout] at hi
            exact Or.inl (Option.some.inj hi).symm
        · by_cases hterm : ph = PodPhase.failed ∨ ph = PodPhase.succeeded
          · have hout : reconcile env = persistStep env
                { defaulted inst0 with status := { phase := PhaseDone } }
                [Op.getAt, Op.setOwner (newPodForCR (defaulted inst0)),
                 Op.getPod (newPodForCR (defaulted inst0)).name
                   (newPodForCR (defaulted inst0)).ns] := by
              simp [reconcile, h, reconcileFetched, hpend, hrun, hso, hgp, hterm,
                PhasePending, PhaseRunning, PhaseDone]
            rw [hout, persistStep_inst] at hi
            obtain rfl := Option.some.inj hi
            rw [hout, persistStep_ops]
            simp
          · have hout : (reconcile env).inst = some (defaulted inst0) := by
              simp [reconcile, h, reconcileFetched, hpend, hrun, hso, hgp, hterm,
                PhasePending, PhaseRunning, PhaseDone]
            rw [hout] at hi
            exact Or.inl (Option.some.inj hi).symm
      · have hout : (reconcile env).inst = some (defaulted inst0) := by
          simp [reconcile, h, reconcileFetched, hpend, hrun, hso,
            PhasePending, PhaseRunning, PhaseDone]
        rw [hout] at hi
        exact Or.inl (Option.some.inj hi).symm
    · by_cases hdone : (defaulted inst0).status.phase = PhaseDone
      · have hout : (reconcile env).inst = some (defaulted inst0) := by
          simp [reconcile, h, reconcileFetched, hpend, hrun, hdone,
            PhasePending, PhaseRunning, PhaseDone]
        rw [hout] at hi
        exact Or.inl (Option.some.inj hi).symm
      · have hout : (reconcile env).inst = some (defaulted inst0) := by
          simp [reconcile, h, reconcileFetched, hpend, hrun, hdone]
        rw [hout] at hi
        exact Or.inl (Option.some.inj hi).symm

/-- Claim C4 as amended: whenever a reconcile changed the phase in memory
to something other than the PENDING initialization (i.e. a change made
inside the switch: to RUNNING or to DONE), the new status is passed to
the status writer before returning; the unset-to-PENDING initialization
alone is not persisted. -/
theorem C4_switch_change_persisted (env : Env) (inst0 i : At)
    (h : env.getAt = Except.ok inst0)
    (hi : (reconcile env).inst = some i)
    (hchg : i.status.phase ≠ inst0.status.phase)
    (hnp : i.status.phase ≠ PhasePending) :
    Op.updateStatus i.status ∈ (reconcile env).ops := by
  rcases reconcile_inst_cases env inst0 h i hi with hcase | hcase
  · exfalso
    by_cases h0 : inst0.status.phase = ""
    · apply hnp
      rw [hcase]
      unfold defaulted
      rw [if_pos h0]
    · apply hchg
      rw [hcase, defaulted_of_ne inst0 h0]
  · exact hcase

/-- Witness for the amended C4 at `envPast`: the PENDING-to-RUNNING
change is written back. -/
theorem C4_witness :
    Op.updateStatus ({ atPendFuture with
      status := { phase := PhaseRunning } } : At).status ∈ (reconcile envPast).ops :=
  C4_switch_change_persisted envPast atPendFuture
    { atPendFuture with status := { phase := PhaseRunning } }
    rfl (by decide) (by decide) (by decide)

end Cnat
